import Mathlib

/-!
Shallow embedding of the hbnssi-timings data fetcher
(`src/data_fetcher/data_fetcher.py`).

The embedding models the fetch orchestration as a pure trace semantics:

* the file-retrieval collaborator (`_fetch_files` of nilearn) is an external
  oracle `net : FetchReq → Bool` deciding whether a submitted retrieval
  request succeeds; the request record captures exactly the arguments the
  call site passes (in particular, `resume?` records the `resume` keyword
  actually supplied at the call site, `none` when the call omits it and the
  collaborator falls back to its own default);
* the tabular parser (`csv_to_array`) is an external collaborator; its
  outputs (the parsed participant sid column and the parsed bundled lookup
  table `hbnssi.csv`) are inputs of the model;
* paths are lists of components (python `Path(a, b)` is `a ++ [b]`);
* each helper returns the list of retrieval requests it actually issued, in
  order, together with an `Except` mirroring normal return or the python
  exception that aborts the run (`FetchError.retrieval` for a collaborator
  failure, `FetchError.indexError` for the numpy `IndexError` raised by
  `this_osf_id[...][0]` on an empty row selection).
-/

set_option autoImplicit false

namespace HbnSsi

/-- The four per-subject artifact kinds of `_fetch_hbnssi_functional`
(the template variables `raiders`, `flanker`, `conditions`, `runs`). -/
inductive Kind where
  | raiders
  | flanker
  | condition
  | run
deriving DecidableEq, Repr

/-- One parsed row of the bundled lookup table `hbnssi.csv`
(dtype `sid, raiders, flanker, condition, run` at lines 126-131). -/
structure LookupRow where
  sid : String
  raiders : String
  flanker : String
  condition : String
  run : String
deriving DecidableEq, Repr

/-- Field selection on a lookup row: `this_osf_id[kind]`. -/
def kindField (r : LookupRow) : Kind → String
  | Kind.raiders => r.raiders
  | Kind.flanker => r.flanker
  | Kind.condition => r.condition
  | Kind.run => r.run

/-- The fixed filename templates of lines 118-121, split around the single
substitution slot `{0}`: every template is the literal `sub-` followed by the
subject id followed by this kind-specific suffix. -/
def kindSuffix : Kind → String
  | Kind.raiders => "_task-RAIDERS_space-MNI152NLin2009cAsym_desc-postproc_bold.nii.gz"
  | Kind.flanker => "_task-FLANKERTASK_space-MNI152NLin2009cAsym_desc-postproc_bold.nii.gz"
  | Kind.condition => "_labels.csv"
  | Kind.run => "_runs.csv"

/-- `template.format(sid)`: the artifact filename for one subject and kind. -/
def artifactFilename (sid : String) (k : Kind) : String :=
  "sub-" ++ sid ++ kindSuffix k

/-- `derivatives_dir`, the derivatives subdirectory of the dataset root (line 133). -/
def derivativesDir (dataDir : List String) : List String :=
  dataDir ++ ["derivatives"]

/-- `Path(derivatives_dir, template.format(sid))` (lines 141, 151, 161, 171). -/
def artifactTarget (dataDir : List String) (sid : String) (k : Kind) : List String :=
  derivativesDir dataDir ++ [artifactFilename sid k]

/-- The default remote url template `https://osf.io/download/{}/` of line 116,
split around its single substitution slot into prefix and suffix parts. -/
def defaultUrlTemplate : String × String :=
  ("https://osf.io/download/", "/")

/-- `url.format(key)`: substitute a resolved remote key into the template. -/
def formatUrl (u : String × String) (key : String) : String :=
  u.1 ++ key ++ u.2

/-- One retrieval request submitted to the file-retrieval collaborator
`_fetch_files`.  `resume?` records the `resume` keyword passed at the call
site; `none` means the call site omitted it, so the collaborator uses its
own default. -/
structure FetchReq where
  dataDir : List String
  target : List String
  url : String
  resume? : Option Bool
deriving DecidableEq, Repr

/-- The python exceptions that can abort the orchestration in this model:
a collaborator retrieval failure, or the numpy `IndexError` raised by
`this_osf_id[raiders][0]` when the row selection for a subject is empty. -/
inductive FetchError where
  | retrieval (req : FetchReq)
  | indexError (sid : String)
deriving DecidableEq, Repr

/-- The request built for one artifact of one subject (lines 140-145 and the
three analogous blocks): target under `derivatives/`, url from the template
and the resolved key, and no `resume` keyword passed to `_fetch_files`. -/
def artifactReq (dataDir : List String) (u : String × String) (key sid : String)
    (k : Kind) : FetchReq :=
  { dataDir := dataDir
    target := artifactTarget dataDir sid k
    url := formatUrl u key
    resume? := none }

/-- The order in which the loop body of lines 136-177 downloads the four
artifact kinds of one subject. -/
def kindOrder : List Kind :=
  [Kind.raiders, Kind.flanker, Kind.condition, Kind.run]

/-- The per-subject download sequence over a list of kinds: issue one request
per kind in order; a collaborator failure raises immediately, so later kinds
are not requested. Returns the issued requests and the outcome. -/
def fetchKinds (net : FetchReq → Bool) (dataDir : List String) (u : String × String)
    (row : LookupRow) (sid : String) : List Kind → List FetchReq × Except FetchError Unit
  | [] => ([], Except.ok ())
  | k :: ks =>
    let req := artifactReq dataDir u (kindField row k) sid k
    if net req then
      let rest := fetchKinds net dataDir u row sid ks
      (req :: rest.1, rest.2)
    else
      ([req], Except.error (FetchError.retrieval req))

/-- `osf_data[osf_data.sid == sid]` (line 137): numpy boolean-mask row
selection, in table file order. -/
def matchingRows (osf : List LookupRow) (sid : String) : List LookupRow :=
  osf.filter (fun r => r.sid == sid)

/-- The body of the loop of lines 136-177 for one subject: select the rows
matching the sid; `this_osf_id[raiders][0]` raises `IndexError` before any
request when the selection is empty, and otherwise every `[...][0]` reads the
first selected row, after which the four kinds are fetched in `kindOrder`. -/
def fetchSubject (net : FetchReq → Bool) (osf : List LookupRow) (dataDir : List String)
    (u : String × String) (sid : String) : List FetchReq × Except FetchError Unit :=
  match (matchingRows osf sid).head? with
  | none => ([], Except.error (FetchError.indexError sid))
  | some row => fetchKinds net dataDir u row sid kindOrder

/-- `_fetch_hbnssi_functional` (lines 79-179): iterate the participant sid
column in registry order; any exception aborts the remaining subjects; on
normal completion return `derivatives_dir`.  The `resume` parameter is
accepted, as in the source, where it is never forwarded to `_fetch_files`. -/
def fetch_hbnssi_functional (net : FetchReq → Bool) (osf : List LookupRow)
    (dataDir : List String) (u : String × String) (resume : Bool) :
    List String → List FetchReq × Except FetchError (List String)
  | [] => ([], Except.ok (derivativesDir dataDir))
  | sid :: rest =>
    let s := fetchSubject net osf dataDir u sid
    match s.2 with
    | Except.error e => (s.1, Except.error e)
    | Except.ok _ =>
      let r := fetch_hbnssi_functional net osf dataDir u resume rest
      (s.1 ++ r.1, r.2)

/-- Fixed remote location of the participant registry (line 31). -/
def participantsUrl : String :=
  "https://osf.io/wtvh3/download"

/-- Fixed remote location of the brain mask (line 68). -/
def maskUrl : String :=
  "https://osf.io/kp6m9/download"

/-- Fixed brain-mask filename (line 70). -/
def maskFilename : String :=
  "tpl-MNI152NLin2009cAsym_res-3mm_label-GM_desc-thr02_probseg.nii.gz"

/-- The request issued by `_fetch_hbnssi_participants` (lines 33-34):
no `resume` keyword is passed at that call site either. -/
def participantsReq (dataDir : List String) : FetchReq :=
  { dataDir := dataDir
    target := ["participants.csv"]
    url := participantsUrl
    resume? := none }

/-- The request issued by `_fetch_hbnssi_brain_mask` (lines 70-74). -/
def maskReq (dataDir : List String) : FetchReq :=
  { dataDir := dataDir
    target := [maskFilename]
    url := maskUrl
    resume? := none }

/-- An observable step of the top-level fetch: a retrieval request submitted
to `_fetch_files`, or a `Path(...).mkdir(parents=True, exist_ok=True)` call. -/
inductive Event where
  | fetch (req : FetchReq)
  | mkdir (path : List String)
deriving DecidableEq, Repr

/-- The result object of line 256: the `Bunch` returned by `fetch_hbnssi`,
with its exact field set. -/
structure DatasetResult where
  subjects : List String
  mask : List String
  task_dir : List String
  out_dir : List String
  mask_cache : List String
deriving DecidableEq, Repr

/-- `fetch_hbnssi` (lines 182-258): fetch the participant registry, then the
brain mask, then run `_fetch_hbnssi_functional` over the parsed sid column,
then create `decoding/` and `mask_cache/`, then package the `Bunch`.  The
parsed sid column `sids` is an input (parsing is the external tabular
collaborator); the registry and mask retrievals are still recorded as events,
and a failure of either aborts the run at that point. -/
def fetch_hbnssi (net : FetchReq → Bool) (osf : List LookupRow) (dataDir : List String)
    (resume : Bool) (sids : List String) : List Event × Except FetchError DatasetResult :=
  let pReq := participantsReq dataDir
  if net pReq then
    let mReq := maskReq dataDir
    if net mReq then
      let f := fetch_hbnssi_functional net osf dataDir defaultUrlTemplate resume sids
      match f.2 with
      | Except.error e =>
        (Event.fetch pReq :: Event.fetch mReq :: f.1.map Event.fetch, Except.error e)
      | Except.ok derivDir =>
        (Event.fetch pReq :: Event.fetch mReq ::
          (f.1.map Event.fetch
            ++ [Event.mkdir (dataDir ++ ["decoding"]), Event.mkdir (dataDir ++ ["mask_cache"])]),
         Except.ok
          { subjects := sids
            mask := dataDir ++ [maskFilename]
            task_dir := derivDir
            out_dir := dataDir ++ ["decoding"]
            mask_cache := dataDir ++ ["mask_cache"] })
    else
      ([Event.fetch pReq, Event.fetch mReq], Except.error (FetchError.retrieval mReq))
  else
    ([Event.fetch pReq], Except.error (FetchError.retrieval pReq))

/-- The nonempty initial segments of a directory path, shortest first: the
chain of directories that `mkdir(parents=True)` guarantees to exist. -/
def dirChain (p : List String) : List (List String) :=
  (List.range p.length).map (fun i => p.take (i + 1))

/-- Filesystem model of `Path(p).mkdir(parents=True, exist_ok=True)`
(lines 250 and 253): the filesystem is the list of existing directories; the
call adds the directory and every missing parent, and is total — with
`exist_ok=True` an already existing directory raises nothing. -/
def mkdirParentsExistOk (fs : List (List String)) (p : List String) : List (List String) :=
  fs ++ (dirChain p).filter (fun q => !(decide (q ∈ fs)))

/-- The directory-layout step of lines 249-254: create `decoding/` then
`mask_cache/` under the dataset root, returning the new filesystem and the
two directory paths stored into the result. -/
def ensureLayout (fs : List (List String)) (dataDir : List String) :
    List (List String) × List String × List String :=
  let fs1 := mkdirParentsExistOk fs (dataDir ++ ["decoding"])
  let fs2 := mkdirParentsExistOk fs1 (dataDir ++ ["mask_cache"])
  (fs2, dataDir ++ ["decoding"], dataDir ++ ["mask_cache"])

instance {ε α : Type} [DecidableEq ε] [DecidableEq α] : DecidableEq (Except ε α) := fun x y =>
  match x, y with
  | Except.ok a, Except.ok b =>
    if h : a = b then isTrue (by rw [h])
    else isFalse (fun hh => h (by cases hh; rfl))
  | Except.ok _, Except.error _ => isFalse (fun hh => by cases hh)
  | Except.error _, Except.ok _ => isFalse (fun hh => by cases hh)
  | Except.error e, Except.error f =>
    if h : e = f then isTrue (by rw [h])
    else isFalse (fun hh => h (by cases hh; rfl))

/-! ### Structural lemmas about the per-subject download sequence -/

/-- On a successful run over a kind list, the issued requests are exactly one
request per kind, in list order, with the key read from the given row. -/
theorem fetchKinds_ok_trace (net : FetchReq → Bool) (dataDir : List String)
    (u : String × String) (row : LookupRow) (sid : String) :
    ∀ ks : List Kind, (fetchKinds net dataDir u row sid ks).2 = Except.ok () →
      (fetchKinds net dataDir u row sid ks).1 =
        ks.map (fun k => artifactReq dataDir u (kindField row k) sid k)
  | [], _ => rfl
  | k :: ks, h => by
    by_cases hn : net (artifactReq dataDir u (kindField row k) sid k)
    · have h2 : (fetchKinds net dataDir u row sid ks).2 = Except.ok () := by
        simpa [fetchKinds, hn] using h
      simp [fetchKinds, hn, fetchKinds_ok_trace net dataDir u row sid ks h2]
    · simp [fetchKinds, hn] at h

/-- `fetchKinds` never raises the empty-selection `IndexError`: its only
failure mode is a collaborator retrieval failure. -/
theorem fetchKinds_no_indexError (net : FetchReq → Bool) (dataDir : List String)
    (u : String × String) (row : LookupRow) (sid : String) :
    ∀ (ks : List Kind) (sid' : String),
      (fetchKinds net dataDir u row sid ks).2 ≠ Except.error (FetchError.indexError sid')
  | [], _ => by simp [fetchKinds]
  | k :: ks, sid' => by
    by_cases hn : net (artifactReq dataDir u (kindField row k) sid k)
    · simpa [fetchKinds, hn] using fetchKinds_no_indexError net dataDir u row sid ks sid'
    · simp [fetchKinds, hn]

/-- Unfolding of the functional fetch on a cons cell. -/
theorem fetch_hbnssi_functional_cons (net : FetchReq → Bool) (osf : List LookupRow)
    (dataDir : List String) (u : String × String) (resume : Bool) (sid : String)
    (rest : List String) :
    fetch_hbnssi_functional net osf dataDir u resume (sid :: rest) =
      match (fetchSubject net osf dataDir u sid).2 with
      | Except.error e => ((fetchSubject net osf dataDir u sid).1, Except.error e)
      | Except.ok _ =>
        ((fetchSubject net osf dataDir u sid).1
            ++ (fetch_hbnssi_functional net osf dataDir u resume rest).1,
         (fetch_hbnssi_functional net osf dataDir u resume rest).2) := rfl

/-- On a successful functional fetch, the request trace is the concatenation
of the per-subject traces in registry order, and every subject succeeded. -/
theorem fetch_hbnssi_functional_ok_trace (net : FetchReq → Bool) (osf : List LookupRow)
    (dataDir : List String) (u : String × String) (resume : Bool) :
    ∀ (sids : List String) (dd : List String),
      (fetch_hbnssi_functional net osf dataDir u resume sids).2 = Except.ok dd →
      (fetch_hbnssi_functional net osf dataDir u resume sids).1 =
          (sids.map (fun s => (fetchSubject net osf dataDir u s).1)).flatten
        ∧ ∀ s ∈ sids, (fetchSubject net osf dataDir u s).2 = Except.ok ()
  | [], dd, _ => ⟨rfl, by simp⟩
  | sid :: rest, dd, h => by
    rw [fetch_hbnssi_functional_cons] at h
    cases hs : (fetchSubject net osf dataDir u sid).2 with
    | error e => rw [hs] at h; exact absurd h (by simp)
    | ok a =>
      rw [hs] at h
      simp only at h
      have ih := fetch_hbnssi_functional_ok_trace net osf dataDir u resume rest dd h
      constructor
      · rw [fetch_hbnssi_functional_cons, hs]
        simp [ih.1]
      · intro s hmem
        rcases List.mem_cons.mp hmem with hh | hh
        · subst hh; cases a; exact hs
        · exact ih.2 s hh

/-- Fail-fast propagation: when every subject of `pre` succeeds and subject
`s` raises, the whole run raises the same error and its request trace is the
`pre` traces followed by the requests `s` issued before raising — subjects
after `s` contribute nothing. -/
theorem fetch_hbnssi_functional_failfast (net : FetchReq → Bool) (osf : List LookupRow)
    (dataDir : List String) (u : String × String) (resume : Bool) :
    ∀ (pre : List String) (s : String) (post : List String) (e : FetchError),
      (∀ p ∈ pre, (fetchSubject net osf dataDir u p).2 = Except.ok ()) →
      (fetchSubject net osf dataDir u s).2 = Except.error e →
      fetch_hbnssi_functional net osf dataDir u resume (pre ++ s :: post) =
        ((pre.map (fun p => (fetchSubject net osf dataDir u p).1)).flatten
            ++ (fetchSubject net osf dataDir u s).1,
         Except.error e)
  | [], s, post, e, _, hs => by
    rw [List.nil_append, fetch_hbnssi_functional_cons, hs]
    simp
  | p :: pre, s, post, e, hpre, hs => by
    have hp : (fetchSubject net osf dataDir u p).2 = Except.ok () :=
      hpre p (List.mem_cons_self p pre)
    have ih := fetch_hbnssi_functional_failfast net osf dataDir u resume pre s post e
      (fun q hq => hpre q (List.mem_cons_of_mem p hq)) hs
    rw [List.cons_append, fetch_hbnssi_functional_cons, hp]
    simp only [ih]
    simp

/-! ### Distinctness of derived target paths -/

/-- Two left factors of the same list are comparable. -/
theorem append_eq_append_comparable {α : Type} :
    ∀ (p q u v : List α), p ++ u = q ++ v → p <+: q ∨ q <+: p
  | [], q, _, _, _ => Or.inl ⟨q, rfl⟩
  | _ :: _, [], _, _, _ => Or.inr ⟨_, rfl⟩
  | a :: p, b :: q, u, v, h => by
    have h1 : a = b := by injection h
    have h2 : p ++ u = q ++ v := by injection h
    rcases append_eq_append_comparable p q u v h2 with hc | hc
    · exact Or.inl (List.cons_prefix_cons.mpr ⟨h1, hc⟩)
    · exact Or.inr (List.cons_prefix_cons.mpr ⟨h1.symm, hc⟩)

/-- The reversed character lists of two distinct kind suffixes are
incomparable: no kind suffix is a suffix of a filename of another kind. -/
theorem kindSuffix_rev_incomparable :
    ∀ k1 k2 : Kind, k1 ≠ k2 →
      ¬ ((kindSuffix k1).data.reverse <+: (kindSuffix k2).data.reverse) ∧
        ¬ ((kindSuffix k2).data.reverse <+: (kindSuffix k1).data.reverse) := by
  intro k1 k2 hne
  cases k1 <;> cases k2 <;>
    first
      | exact absurd rfl hne
      | exact ⟨by decide, by decide⟩

/-- Extensionality for the string model. -/
theorem string_data_inj {a b : String} (h : a.data = b.data) : a = b := by
  cases a; cases b; cases h; rfl

/-- The artifact filename determines the subject id and the kind. -/
theorem artifactFilename_inj {s1 s2 : String} {k1 k2 : Kind}
    (h : artifactFilename s1 k1 = artifactFilename s2 k2) : s1 = s2 ∧ k1 = k2 := by
  have hd : ("sub-".data ++ s1.data) ++ (kindSuffix k1).data
      = ("sub-".data ++ s2.data) ++ (kindSuffix k2).data := by
    have hc := congrArg String.data h
    simpa [artifactFilename, String.data_append] using hc
  rw [List.append_assoc, List.append_assoc] at hd
  have hd2 : s1.data ++ (kindSuffix k1).data = s2.data ++ (kindSuffix k2).data :=
    List.append_cancel_left hd
  by_cases hk : k1 = k2
  · subst hk
    have hs : s1.data = s2.data := List.append_cancel_right hd2
    exact ⟨string_data_inj hs, rfl⟩
  · exfalso
    have hrev := congrArg List.reverse hd2
    rw [List.reverse_append, List.reverse_append] at hrev
    rcases append_eq_append_comparable _ _ _ _ hrev with hc | hc
    · exact (kindSuffix_rev_incomparable k1 k2 hk).1 hc
    · exact (kindSuffix_rev_incomparable k1 k2 hk).2 hc

/-- Claim C5: the local target path of an artifact is a pure deterministic
function of the subject id and the kind — it equals the derivatives directory
extended with the fixed kind-specific filename template instantiated at the
subject id, and it does not depend on the url template, on the resolved
remote key, or on any retrieval outcome. -/
theorem target_pure_deterministic (dataDir : List String) (u u' : String × String)
    (key key' sid : String) (k : Kind) :
    (artifactReq dataDir u key sid k).target = derivativesDir dataDir ++ [artifactFilename sid k]
    ∧ (artifactReq dataDir u key sid k).target = (artifactReq dataDir u' key' sid k).target
    ∧ artifactFilename sid k = "sub-" ++ sid ++ kindSuffix k :=
  ⟨rfl, rfl, rfl⟩

/-- Claim C6: distinct (subject id, kind) pairs derive distinct local target
paths — no two artifact retrievals of one run target the same path. -/
theorem targets_distinct (dataDir : List String) (s1 s2 : String) (k1 k2 : Kind)
    (hne : (s1, k1) ≠ (s2, k2)) :
    artifactTarget dataDir s1 k1 ≠ artifactTarget dataDir s2 k2 := by
  intro h
  apply hne
  have h1 : derivativesDir dataDir ++ [artifactFilename s1 k1]
      = derivativesDir dataDir ++ [artifactFilename s2 k2] := h
  have h2 : [artifactFilename s1 k1] = [artifactFilename s2 k2] :=
    List.append_cancel_left h1
  have h3 : artifactFilename s1 k1 = artifactFilename s2 k2 := by injection h2
  obtain ⟨hs, hk⟩ := artifactFilename_inj h3
  rw [hs, hk]

/-- Witness for C6 at a concrete pair of subjects. -/
theorem targets_distinct_witness :
    ("A001", Kind.raiders) ≠ ("A002", Kind.raiders) ∧
      artifactTarget ["root"] "A001" Kind.raiders ≠ artifactTarget ["root"] "A002" Kind.raiders :=
  ⟨by decide, targets_distinct ["root"] "A001" "A002" Kind.raiders Kind.raiders (by decide)⟩

/-! ### Concrete example data used by witnesses and counterexamples -/

/-- A lookup row for subject `A001` with all four keys populated. -/
def rowA001 : LookupRow :=
  { sid := "A001", raiders := "r1", flanker := "f1", condition := "c1", run := "n1" }

/-- A second lookup row for subject `A001`, with different keys. -/
def rowA001b : LookupRow :=
  { sid := "A001", raiders := "r9", flanker := "f9", condition := "c9", run := "n9" }

/-- A lookup row for subject `A002`. -/
def rowA002 : LookupRow :=
  { sid := "A002", raiders := "r2", flanker := "f2", condition := "c2", run := "n2" }

/-- A lookup row for subject `A001` whose raiders key field is empty. -/
def rowEmptyKey : LookupRow :=
  { sid := "A001", raiders := "", flanker := "f1", condition := "c1", run := "n1" }

/-- A lookup table with one row per example subject. -/
def osfEx : List LookupRow :=
  [rowA001, rowA002]

/-- A lookup table with two rows for subject `A001`. -/
def osfDup : List LookupRow :=
  [rowA001, rowA001b, rowA002]

/-- A lookup table whose only row has an empty raiders key field. -/
def osfEmptyKey : List LookupRow :=
  [rowEmptyKey]

/-- A collaborator oracle for which every retrieval succeeds. -/
def netTrue : FetchReq → Bool :=
  fun _ => true

/-! ### Claims -/

/-- Claim C1 (amended): a registry subject with no matching lookup-table row
makes the fetch fail hard — the numpy `IndexError` raised by the empty row
selection, the concrete carrier of the spec `LookupMissingError` — before any
retrieval request for that subject is issued, and no requests for subjects
after it in registry order are issued; the run yields exactly the requests of
the preceding subjects and the error.  (The empty-key-field half of the
original claim is refuted by `empty_key_not_rejected`: an empty key field is
not detected; it is substituted into the url and the retrieval proceeds.) -/
theorem lookup_missing_fail_fast (net : FetchReq → Bool) (osf : List LookupRow)
    (dataDir : List String) (u : String × String) (resume : Bool)
    (pre : List String) (s : String) (post : List String)
    (hpre : ∀ p ∈ pre, (fetchSubject net osf dataDir u p).2 = Except.ok ())
    (hmiss : matchingRows osf s = []) :
    fetch_hbnssi_functional net osf dataDir u resume (pre ++ s :: post) =
      ((pre.map (fun p => (fetchSubject net osf dataDir u p).1)).flatten,
       Except.error (FetchError.indexError s)) := by
  have hs : fetchSubject net osf dataDir u s = ([], Except.error (FetchError.indexError s)) := by
    simp [fetchSubject, hmiss]
  have hmain := fetch_hbnssi_functional_failfast net osf dataDir u resume pre s post
    (FetchError.indexError s) hpre (by rw [hs])
  rw [hmain, hs]
  simp

/-- Witness for C1 (amended) at a concrete registry: subjects `A001`, `A002`
have rows, `C777` has none; the run issues the eight requests of the first
two subjects and then aborts with the selection error for `C777`. -/
theorem lookup_missing_fail_fast_witness :
    fetch_hbnssi_functional netTrue osfEx ["root"] defaultUrlTemplate true
        (["A001", "A002"] ++ "C777" :: []) =
      (((["A001", "A002"].map
          (fun p => (fetchSubject netTrue osfEx ["root"] defaultUrlTemplate p).1)).flatten),
       Except.error (FetchError.indexError "C777")) :=
  lookup_missing_fail_fast netTrue osfEx ["root"] defaultUrlTemplate true
    ["A001", "A002"] "C777" []
    (by
      intro p hp
      rcases List.mem_cons.mp hp with h | h
      · subst h; rfl
      · rw [List.mem_singleton] at h; subst h; rfl)
    rfl

/-- Counterexample to claim C1 as stated: a subject whose lookup row has an
empty required key field is not rejected — no error is raised before (or
instead of) the retrieval; the run succeeds and issues all four requests for
that subject, the first with the empty key substituted into the url. -/
theorem empty_key_not_rejected :
    matchingRows osfEmptyKey "A001" = [rowEmptyKey]
    ∧ kindField rowEmptyKey Kind.raiders = ""
    ∧ (fetch_hbnssi_functional netTrue osfEmptyKey ["root"] defaultUrlTemplate true
        ["A001"]).2 = Except.ok (derivativesDir ["root"])
    ∧ (fetch_hbnssi_functional netTrue osfEmptyKey ["root"] defaultUrlTemplate true
        ["A001"]).1.length = 4
    ∧ ((fetch_hbnssi_functional netTrue osfEmptyKey ["root"] defaultUrlTemplate true
        ["A001"]).1.map (fun req => req.url)).head? = some "https://osf.io/download//" :=
  ⟨rfl, rfl, rfl, rfl, rfl⟩

/-- Claim C2 evaluation at the failing input `resume := false`: the source
passes no `resume` keyword to any `_fetch_files` call, so every one of the
six requests of a successful two-subject-free run (registry, mask, four
artifacts of `A001`) carries `resume? = none` rather than the caller-supplied
flag. -/
theorem resume_flag_dropped :
    ((fetch_hbnssi netTrue osfEx ["root"] false ["A001"]).1.filterMap
      (fun e => match e with
        | Event.fetch req => some req.resume?
        | Event.mkdir _ => none)) =
      [none, none, none, none, none, none] := rfl

/-- Claim C4: on a successful run the request trace is the concatenation of
the per-subject traces in registry order (so all four retrievals of subject
`i` are issued before any retrieval of subject `i+1`); and when every subject
of `pre` succeeds and subject `s` raises, the run propagates that error at
once — its trace is the `pre` traces followed by the requests `s` issued
before raising, with nothing for any later subject. -/
theorem subjects_sequential_fail_fast :
    (∀ (net : FetchReq → Bool) (osf : List LookupRow) (dataDir : List String)
        (u : String × String) (resume : Bool) (sids dd : List String),
      (fetch_hbnssi_functional net osf dataDir u resume sids).2 = Except.ok dd →
        (fetch_hbnssi_functional net osf dataDir u resume sids).1 =
          (sids.map (fun s => (fetchSubject net osf dataDir u s).1)).flatten)
    ∧ (∀ (net : FetchReq → Bool) (osf : List LookupRow) (dataDir : List String)
        (u : String × String) (resume : Bool) (pre : List String) (s : String)
        (post : List String) (e : FetchError),
      (∀ p ∈ pre, (fetchSubject net osf dataDir u p).2 = Except.ok ()) →
      (fetchSubject net osf dataDir u s).2 = Except.error e →
        fetch_hbnssi_functional net osf dataDir u resume (pre ++ s :: post) =
          ((pre.map (fun p => (fetchSubject net osf dataDir u p).1)).flatten
              ++ (fetchSubject net osf dataDir u s).1,
           Except.error e)) :=
  ⟨fun net osf dataDir u resume sids dd h =>
      (fetch_hbnssi_functional_ok_trace net osf dataDir u resume sids dd h).1,
   fun net osf dataDir u resume pre s post e h1 h2 =>
      fetch_hbnssi_functional_failfast net osf dataDir u resume pre s post e h1 h2⟩

/-- Witness for C4: the ordered-blocks part at a successful two-subject run,
and the fail-fast part at a run whose middle subject has no lookup row. -/
theorem subjects_sequential_fail_fast_witness :
    ((fetch_hbnssi_functional netTrue osfEx ["root"] defaultUrlTemplate true
        ["A001", "A002"]).1 =
      ((["A001", "A002"].map
        (fun s => (fetchSubject netTrue osfEx ["root"] defaultUrlTemplate s).1)).flatten))
    ∧ fetch_hbnssi_functional netTrue osfEx ["root"] defaultUrlTemplate true
        (["A001"] ++ "B999" :: ["A002"]) =
      (((["A001"].map
          (fun p => (fetchSubject netTrue osfEx ["root"] defaultUrlTemplate p).1)).flatten
          ++ (fetchSubject netTrue osfEx ["root"] defaultUrlTemplate "B999").1),
       Except.error (FetchError.indexError "B999")) :=
  ⟨subjects_sequential_fail_fast.1 netTrue osfEx ["root"] defaultUrlTemplate true
      ["A001", "A002"] (derivativesDir ["root"]) rfl,
   subjects_sequential_fail_fast.2 netTrue osfEx ["root"] defaultUrlTemplate true
      ["A001"] "B999" ["A002"] (FetchError.indexError "B999")
      (by intro p hp; rw [List.mem_singleton] at hp; subst hp; rfl)
      rfl⟩

/-- Claim C9: within one subject whose lookup row is found, a successful
iteration issues exactly four requests, in the fixed kind order raiders,
flanker, condition labels, run indices — uniformly in the subject. -/
theorem intra_subject_kind_order (net : FetchReq → Bool) (osf : List LookupRow)
    (dataDir : List String) (u : String × String) (sid : String) (row : LookupRow)
    (hrow : (matchingRows osf sid).head? = some row)
    (hok : (fetchSubject net osf dataDir u sid).2 = Except.ok ()) :
    (fetchSubject net osf dataDir u sid).1 =
      [artifactReq dataDir u (kindField row Kind.raiders) sid Kind.raiders,
       artifactReq dataDir u (kindField row Kind.flanker) sid Kind.flanker,
       artifactReq dataDir u (kindField row Kind.condition) sid Kind.condition,
       artifactReq dataDir u (kindField row Kind.run) sid Kind.run] := by
  unfold fetchSubject at hok ⊢
  rw [hrow] at hok ⊢
  simpa [kindOrder] using fetchKinds_ok_trace net dataDir u row sid kindOrder hok

/-- Witness for C9 at subject `A001` of the example table. -/
theorem intra_subject_kind_order_witness :
    (fetchSubject netTrue osfEx ["root"] defaultUrlTemplate "A001").1 =
      [artifactReq ["root"] defaultUrlTemplate (kindField rowA001 Kind.raiders) "A001"
         Kind.raiders,
       artifactReq ["root"] defaultUrlTemplate (kindField rowA001 Kind.flanker) "A001"
         Kind.flanker,
       artifactReq ["root"] defaultUrlTemplate (kindField rowA001 Kind.condition) "A001"
         Kind.condition,
       artifactReq ["root"] defaultUrlTemplate (kindField rowA001 Kind.run) "A001"
         Kind.run] :=
  intra_subject_kind_order netTrue osfEx ["root"] defaultUrlTemplate "A001" rowA001 rfl rfl

/-- Claim C10: when the lookup table holds more than one row for a subject
id, resolution silently reads the first matching row in table file order for
all four keys — the subject step is exactly the four-kind download from that
first row, and it never raises the empty-selection error. -/
theorem duplicate_rows_first_wins (net : FetchReq → Bool) (osf : List LookupRow)
    (dataDir : List String) (u : String × String) (sid : String) (r1 r2 : LookupRow)
    (rs : List LookupRow) (hdup : matchingRows osf sid = r1 :: r2 :: rs) :
    fetchSubject net osf dataDir u sid = fetchKinds net dataDir u r1 sid kindOrder
    ∧ ∀ sid' : String,
        (fetchSubject net osf dataDir u sid).2 ≠ Except.error (FetchError.indexError sid') := by
  have h1 : fetchSubject net osf dataDir u sid = fetchKinds net dataDir u r1 sid kindOrder := by
    simp [fetchSubject, hdup]
  refine ⟨h1, fun sid' => ?_⟩
  rw [h1]
  exact fetchKinds_no_indexError net dataDir u r1 sid kindOrder sid'

/-- Witness for C10 at a table with two rows for `A001`: the first row wins
and no selection error is possible. -/
theorem duplicate_rows_first_wins_witness :
    fetchSubject netTrue osfDup ["root"] defaultUrlTemplate "A001" =
      fetchKinds netTrue ["root"] defaultUrlTemplate rowA001 "A001" kindOrder
    ∧ (fetchSubject netTrue osfDup ["root"] defaultUrlTemplate "A001").2 ≠
        Except.error (FetchError.indexError "A001") :=
  ⟨(duplicate_rows_first_wins netTrue osfDup ["root"] defaultUrlTemplate "A001"
      rowA001 rowA001b [] rfl).1,
   (duplicate_rows_first_wins netTrue osfDup ["root"] defaultUrlTemplate "A001"
      rowA001 rowA001b [] rfl).2 "A001"⟩

/-- On normal completion the functional fetch returns `derivatives_dir`. -/
theorem fetch_hbnssi_functional_ok_dd (net : FetchReq → Bool) (osf : List LookupRow)
    (dataDir : List String) (u : String × String) (resume : Bool) :
    ∀ (sids dd : List String),
      (fetch_hbnssi_functional net osf dataDir u resume sids).2 = Except.ok dd →
      dd = derivativesDir dataDir
  | [], dd, h => by simpa [fetch_hbnssi_functional] using h.symm
  | sid :: rest, dd, h => by
    rw [fetch_hbnssi_functional_cons] at h
    cases hs : (fetchSubject net osf dataDir u sid).2 with
    | error e => rw [hs] at h; simp at h
    | ok a =>
      rw [hs] at h
      exact fetch_hbnssi_functional_ok_dd net osf dataDir u resume rest dd h

/-- The packaged result of the two-subject witness run of C7. -/
def resultEx : DatasetResult :=
  { subjects := ["A001", "A002"]
    mask := ["root", maskFilename]
    task_dir := ["root", "derivatives"]
    out_dir := ["root", "decoding"]
    mask_cache := ["root", "mask_cache"] }

/-- Does an event submit a retrieval whose target lies under `derivatives/`,
i.e. belong to the per-subject functional fetch? -/
def isFunctionalEvent (dataDir : List String) : Event → Bool
  | Event.fetch req => (derivativesDir dataDir).isPrefixOf req.target
  | Event.mkdir _ => false

/-- The ordering asserted by claim C3 for the mask: in the trace, every
functional artifact retrieval precedes the mask retrieval. -/
def maskAfterFunctional (dataDir : List String) (tr : List Event) : Prop :=
  ∀ i j : Fin tr.length,
    tr.get i = Event.fetch (maskReq dataDir) →
    isFunctionalEvent dataDir (tr.get j) = true →
    (j : Nat) < (i : Nat)

/-- Counterexample to claim C3 as stated: in a successful one-subject run the
mask request is the second event of the trace, before all four functional
requests — the mask retrieval does not occur after the per-subject fetch. -/
theorem mask_fetched_before_functional :
    ¬ maskAfterFunctional ["root"] (fetch_hbnssi netTrue osfEx ["root"] true ["A001"]).1 := by
  intro h
  have hlt := h ⟨1, by decide⟩ ⟨2, by decide⟩ rfl rfl
  exact absurd hlt (by decide)

/-- Claim C3 (amended): `fetch_hbnssi` loads the participant registry, then
performs the single mask retrieval, then runs the per-subject fetch over all
participants, then creates the output directories, and finally packages the
result — the mask retrieval occurs after the registry load but before the
per-subject fetch. -/
theorem fetch_order (net : FetchReq → Bool) (osf : List LookupRow) (dataDir : List String)
    (resume : Bool) (sids : List String)
    (hp : net (participantsReq dataDir) = true) (hm : net (maskReq dataDir) = true) :
    (fetch_hbnssi net osf dataDir resume sids).1 =
      Event.fetch (participantsReq dataDir) :: Event.fetch (maskReq dataDir) ::
        ((fetch_hbnssi_functional net osf dataDir defaultUrlTemplate resume sids).1.map
            Event.fetch
          ++ (match (fetch_hbnssi_functional net osf dataDir defaultUrlTemplate resume sids).2
              with
              | Except.ok _ => [Event.mkdir (dataDir ++ ["decoding"]),
                                Event.mkdir (dataDir ++ ["mask_cache"])]
              | Except.error _ => [])) := by
  unfold fetch_hbnssi
  cases hf : (fetch_hbnssi_functional net osf dataDir defaultUrlTemplate resume sids).2 <;>
    simp [hp, hm, hf]

/-- Witness for C3 (amended) at a concrete successful run. -/
theorem fetch_order_witness :
    (fetch_hbnssi netTrue osfEx ["root"] true ["A001"]).1 =
      Event.fetch (participantsReq ["root"]) :: Event.fetch (maskReq ["root"]) ::
        ((fetch_hbnssi_functional netTrue osfEx ["root"] defaultUrlTemplate true ["A001"]).1.map
            Event.fetch
          ++ (match (fetch_hbnssi_functional netTrue osfEx ["root"] defaultUrlTemplate true
                ["A001"]).2 with
              | Except.ok _ => [Event.mkdir (["root"] ++ ["decoding"]),
                                Event.mkdir (["root"] ++ ["mask_cache"])]
              | Except.error _ => [])) :=
  fetch_order netTrue osfEx ["root"] true ["A001"] rfl rfl

/-- Claim C7: a successful fetch returns a result holding exactly the subject
id list in registry order, the mask path at the dataset root, the derivatives
directory, the decoding-output directory, and the mask-cache directory. -/
theorem result_fields (net : FetchReq → Bool) (osf : List LookupRow) (dataDir : List String)
    (resume : Bool) (sids : List String) (r : DatasetResult)
    (h : (fetch_hbnssi net osf dataDir resume sids).2 = Except.ok r) :
    r.subjects = sids ∧ r.mask = dataDir ++ [maskFilename]
    ∧ r.task_dir = derivativesDir dataDir
    ∧ r.out_dir = dataDir ++ ["decoding"] ∧ r.mask_cache = dataDir ++ ["mask_cache"] := by
  unfold fetch_hbnssi at h
  cases hp : net (participantsReq dataDir) with
  | false => simp [hp] at h
  | true =>
    cases hm : net (maskReq dataDir) with
    | false => simp [hp, hm] at h
    | true =>
      cases hf : (fetch_hbnssi_functional net osf dataDir defaultUrlTemplate resume sids).2 with
      | error e => simp [hp, hm, hf] at h
      | ok dd =>
        have hd : dd = derivativesDir dataDir :=
          fetch_hbnssi_functional_ok_dd net osf dataDir defaultUrlTemplate resume sids dd hf
        subst hd
        simp only [hp, hm, hf, if_true, Except.ok.injEq] at h
        rw [← h]
        exact ⟨rfl, rfl, rfl, rfl, rfl⟩

/-- Witness for C7: for the two-subject registry `A001, A002` the packaged
result has exactly the registry subject list and the four fixed paths. -/
theorem result_fields_witness :
    resultEx.subjects = ["A001", "A002"] ∧ resultEx.mask = ["root"] ++ [maskFilename]
    ∧ resultEx.task_dir = derivativesDir ["root"]
    ∧ resultEx.out_dir = ["root"] ++ ["decoding"]
    ∧ resultEx.mask_cache = ["root"] ++ ["mask_cache"] :=
  result_fields netTrue osfEx ["root"] true ["A001", "A002"] resultEx rfl

/-! ### Directory layout builder -/

/-- Directories already present are kept by a mkdir call. -/
theorem mem_mkdir_of_mem_fs {fs : List (List String)} {p q : List String}
    (h : q ∈ fs) : q ∈ mkdirParentsExistOk fs p :=
  List.mem_append_left _ h

/-- Every directory of the chain of `p` exists after the mkdir call. -/
theorem mem_mkdir_of_mem_chain {fs : List (List String)} {p q : List String}
    (h : q ∈ dirChain p) : q ∈ mkdirParentsExistOk fs p := by
  by_cases hq : q ∈ fs
  · exact List.mem_append_left _ hq
  · refine List.mem_append_right _ ?_
    rw [List.mem_filter]
    exact ⟨h, by simp [hq]⟩

/-- A mkdir call whose whole chain already exists changes nothing. -/
theorem mkdir_noop {fs : List (List String)} {p : List String}
    (h : ∀ q ∈ dirChain p, q ∈ fs) : mkdirParentsExistOk fs p = fs := by
  unfold mkdirParentsExistOk
  rw [List.filter_eq_nil_iff.mpr (fun q hq => by simp [h q hq]), List.append_nil]

/-- A nonempty path belongs to its own chain. -/
theorem self_mem_dirChain {p : List String} (h : p ≠ []) : p ∈ dirChain p := by
  have hpos : 0 < p.length := List.length_pos.mpr h
  refine List.mem_map.mpr ⟨p.length - 1, List.mem_range.mpr (by omega), ?_⟩
  have heq : p.length - 1 + 1 = p.length := by omega
  rw [heq, List.take_length]

/-- Claim C8: the layout step creates the decoding-output and mask-cache
directories together with every missing parent along their chains, and when
every directory of both chains already exists — however populated the
filesystem otherwise is — the step changes nothing.  The model of
`mkdir(parents=True, exist_ok=True)` is a total filesystem update: with
`exist_ok=True` an existing directory raises nothing. -/
theorem layout_builder_spec :
    (∀ (fs : List (List String)) (dataDir : List String),
        (dataDir ++ ["decoding"]) ∈ (ensureLayout fs dataDir).1
      ∧ (dataDir ++ ["mask_cache"]) ∈ (ensureLayout fs dataDir).1
      ∧ ∀ q : List String,
          q ∈ dirChain (dataDir ++ ["decoding"]) ∨ q ∈ dirChain (dataDir ++ ["mask_cache"]) →
          q ∈ (ensureLayout fs dataDir).1)
    ∧ (∀ (fs : List (List String)) (dataDir : List String),
        (∀ q : List String,
          q ∈ dirChain (dataDir ++ ["decoding"]) ∨ q ∈ dirChain (dataDir ++ ["mask_cache"]) →
          q ∈ fs) →
        (ensureLayout fs dataDir).1 = fs) := by
  constructor
  · intro fs dataDir
    refine ⟨?_, ?_, ?_⟩
    · exact mem_mkdir_of_mem_fs (mem_mkdir_of_mem_chain (self_mem_dirChain (by simp)))
    · exact mem_mkdir_of_mem_chain (self_mem_dirChain (by simp))
    · intro q hq
      rcases hq with hq | hq
      · exact mem_mkdir_of_mem_fs (mem_mkdir_of_mem_chain hq)
      · exact mem_mkdir_of_mem_chain hq
  · intro fs dataDir h
    have h1 : mkdirParentsExistOk fs (dataDir ++ ["decoding"]) = fs :=
      mkdir_noop (fun q hq => h q (Or.inl hq))
    have h2 : mkdirParentsExistOk fs (dataDir ++ ["mask_cache"]) = fs :=
      mkdir_noop (fun q hq => h q (Or.inr hq))
    simp [ensureLayout, h1, h2]

/-- Witness for C8: creation on a filesystem holding only the root, and the
no-op on an already-populated filesystem. -/
theorem layout_builder_spec_witness :
    ((["root", "decoding"] ∈ (ensureLayout [["root"]] ["root"]).1)
      ∧ (["root", "mask_cache"] ∈ (ensureLayout [["root"]] ["root"]).1))
    ∧ (ensureLayout [["root"], ["root", "decoding"], ["root", "mask_cache"], ["root", "derivatives"]]
        ["root"]).1 =
      [["root"], ["root", "decoding"], ["root", "mask_cache"], ["root", "derivatives"]] :=
  ⟨⟨(layout_builder_spec.1 [["root"]] ["root"]).1,
    (layout_builder_spec.1 [["root"]] ["root"]).2.1⟩,
   layout_builder_spec.2
     [["root"], ["root", "decoding"], ["root", "mask_cache"], ["root", "derivatives"]] ["root"]
     (by
       intro q hq
       have hd : dirChain (["root"] ++ ["decoding"]) = [["root"], ["root", "decoding"]] := rfl
       have hm : dirChain (["root"] ++ ["mask_cache"]) = [["root"], ["root", "mask_cache"]] := rfl
       rw [hd] at hq
       rw [hm] at hq
       rcases hq with hq | hq <;> simp only [List.mem_cons, List.mem_singleton] at hq <;>
         rcases hq with rfl | rfl | hq <;> first | decide | cases hq)⟩

end HbnSsi
